import Mathlib

/-! Verification of the LatticeLock visual pattern verification engine
(`backend/main.py`, `backend/database/sqlite_db.py`) against its
natural-language specification.

The Python source is shallowly embedded: pure fragments become Lean
functions, the HTTP endpoints become functions from an explicit request
(plus a snapshot of the SQLite pattern table and an oracle for the
fallibility of the audit write) to a result value plus the list of audit
records written.  Machine integers are modelled as `ℤ`/`ℕ`; the
floating-point Euclidean RGB distances of the matcher are modelled as
exact reals (`Real.sqrt`).
-/

namespace LatticeLock

/-- An RGB triple as handled by the backend (Python ints; pixel data is
uint8 but request JSON is unconstrained, so we use `ℤ`). -/
structure RGBv where
  r : ℤ
  g : ℤ
  b : ℤ
deriving DecidableEq, Repr

/-- Computes `min(r, g, b)` as done at several filtering sites in `main.py`. -/
def minCh (c : RGBv) : ℤ := min c.r (min c.g c.b)

/-- Computes `max(r, g, b)`. -/
def maxCh (c : RGBv) : ℤ := max c.r (max c.g c.b)

/-- Computes `r + g + b`. -/
def sumCh (c : RGBv) : ℤ := c.r + c.g + c.b

/-- A colour whose three channels lie in the uint8 range `[0, 255]`. -/
def chInRange (c : RGBv) : Prop :=
  0 ≤ c.r ∧ c.r ≤ 255 ∧ 0 ≤ c.g ∧ c.g ≤ 255 ∧ 0 ≤ c.b ∧ c.b ≤ 255

instance (c : RGBv) : Decidable (chInRange c) := by
  unfold chInRange; infer_instance

/-- Squared Euclidean RGB distance (the radicand of the `math.sqrt`
calls in `verify_pattern`). -/
def sqDist (a b : RGBv) : ℤ :=
  (a.r - b.r) ^ 2 + (a.g - b.g) ^ 2 + (a.b - b.b) ^ 2

/-- Euclidean RGB distance, `math.sqrt((Δr)**2 + (Δg)**2 + (Δb)**2)` in
`verify_pattern` (float arithmetic modelled as exact reals). -/
noncomputable def rgbDist (a b : RGBv) : ℝ :=
  Real.sqrt ((sqDist a b : ℤ) : ℝ)

/-! Section: Cell colour sampling (`analyze_image`)

Two samplers exist in `analyze_image`.  The Hough/centroid path
(`main.py` lines 1196-1213) takes the plain per-channel median of the
sampled window, with no pixel filtering, falling back to `(0,0,0)` on an
empty window.  The cell-extraction fallback path (lines 1504-1533)
filters near-white / near-black / low-saturation pixels first, takes the
per-channel median of the survivors, and falls back to the single centre
pixel when nothing survives. -/

/-- Insert into a `≤`-sorted list of integers. -/
def insertLe (x : ℤ) : List ℤ → List ℤ
  | [] => [x]
  | y :: ys => if x ≤ y then x :: y :: ys else y :: insertLe x ys

/-- Insertion sort, ascending. -/
def sortLe : List ℤ → List ℤ
  | [] => []
  | x :: xs => insertLe x (sortLe xs)

/-- Model of `np.median` on a list of integers followed by `int(...)` truncation:
middle element for odd length, truncated mean of the two middle elements
for even length (all sampled values are non-negative, where `int`
truncation and floor division agree). -/
def medianOf (xs : List ℤ) : ℤ :=
  let s := sortLe xs
  let n := s.length
  if n % 2 = 1 then s.getD (n / 2) 0
  else (s.getD (n / 2 - 1) 0 + s.getD (n / 2) 0) / 2

/-- Per-channel median of a pixel window (`np.median(..., axis=0)`
followed by `int` truncation per channel). -/
def medianRGB (pixels : List RGBv) : RGBv :=
  { r := medianOf (pixels.map RGBv.r)
    g := medianOf (pixels.map RGBv.g)
    b := medianOf (pixels.map RGBv.b) }

/-- The pixel filter of the cell-extraction fallback path
(`main.py` lines 1508-1522): drop near-white (`min > 200`), near-black
(`max < 40` or `sum < 100`) and low-saturation (`max - min < 50`)
pixels. -/
def pixelValid (c : RGBv) : Bool :=
  if minCh c > 200 ∨ maxCh c < 40 ∨ sumCh c < 100 then false
  else if maxCh c - minCh c < 50 then false
  else true

/-- Cell sampler of the fallback cell-extraction path
(`main.py` lines 1504-1533): filtered median with centre-pixel
fallback. -/
def sampleCellFiltered (window : List RGBv) (center : RGBv) : RGBv :=
  let valid := window.filter pixelValid
  if valid.isEmpty then center else medianRGB valid

/-- Cell sampler of the Hough/centroid path (`main.py` lines
1196-1213): plain median of the whole window, `(0,0,0)` when the window
is empty.  No pixel is filtered on this path. -/
def sampleCellPlain (window : List RGBv) : RGBv :=
  if window.isEmpty then ⟨0, 0, 0⟩ else medianRGB window

/-- The sampling procedure exactly as the specification words it
(spec §4.3 step 1): discard near-white (`min channel > 200`), near-black
(`max channel < 40`, or channel sum `< 100`) and low-saturation
(`max − min channel < 50`) pixels, take the per-channel median of the
remaining pixels, and fall back to the single centre pixel if no pixel
survives.  Kept separate from the source-derived samplers so the two can
be compared. -/
def robustSampleSpec (window : List RGBv) (center : RGBv) : RGBv :=
  let keep : RGBv → Bool := fun c =>
    decide (¬ (minCh c > 200) ∧ ¬ (maxCh c < 40 ∨ sumCh c < 100) ∧
            maxCh c - minCh c ≥ 50)
  let surviving := window.filter keep
  if surviving.isEmpty then center else medianRGB surviving

/-! Section: Classification-stage validation (`analyze_image`) -/

/-- Response shape of `analyze_image` (`ImageAnalysisResponse` /
`JSONResponse` bodies; every return site carries HTTP status 200). -/
structure AnalyzeResponse where
  success : Bool
  gridDetected : Bool
  pattern : Option (List ℤ)
  message : String
  status : ℕ
deriving DecidableEq, Repr

/-- The distinct ink-ID count of a pattern, `len(set(pattern))`. -/
def distinctCount (p : List ℤ) : ℕ := p.toFinset.card

/-- Pattern validation of the Hough/centroid JSON path (`main.py` lines
1319-1343): only `unique_colors < 2` is rejected; any other count is
returned as success. -/
def analyzeValidateHough (p : List ℤ) : AnalyzeResponse :=
  if distinctCount p < 2 then
    { success := false, gridDetected := true, pattern := none
      status := 200
      message := "Pattern must use at least 2 unique colors" }
  else
    { success := true, gridDetected := true, pattern := some p
      status := 200
      message := "Successfully extracted pattern from image" }

/-- Pattern validation of the fallback path (`main.py` lines
1703-1714): `unique_colors < 3` is rejected; `unique_colors > 5` only
logs a warning and the response is still a success. -/
def analyzeValidateFinal (p : List ℤ) : AnalyzeResponse :=
  if distinctCount p < 3 then
    { success := false, gridDetected := true, pattern := none
      status := 200
      message := "Pattern must use at least 3 unique colors" }
  else
    { success := true, gridDetected := true, pattern := some p
      status := 200
      message := "Successfully extracted pattern from image" }

/-! Section: `analyze_image` control skeleton (for the no-raise property)

The vision stages (decode, contour search, Hough transform, k-means) are
driven by an oracle recording their outcomes; the branch structure and
every `return` site of `analyze_image` are embedded faithfully.  An
exception raised anywhere inside the `try` block is modelled by
`exnMsg = some e`. -/

/-- Outcomes of the computer-vision stages of one `analyze_image` call. -/
structure VisionOracle where
  /-- Whether `cv2.imdecode` returned a frame (`image is not None`). -/
  decodeOk : Bool
  /-- A quadrilateral grid contour was found. -/
  contourFound : Bool
  /-- The `use_hough_first` heuristic fired (`estimated < 6 or count < 50`). -/
  useHoughFirst : Bool
  /-- Row count found by the centroid branch (`len(row_y_positions)`). -/
  centroidRows : ℕ
  /-- Pattern produced by the Hough/centroid JSON path clustering. -/
  patternA : List ℤ
  /-- Pattern entering the final validation on the fallback path. -/
  patternB : List ℤ
  /-- The clustering-quality score fell below 2.0 on the fallback path. -/
  clusterScoreLow : Bool
  /-- An exception raised inside the `try` block, if any. -/
  exnMsg : Option String

/-- The body of the `try` block of `analyze_image`: each early `return`
becomes `.ok`, an exception becomes `.error`. -/
def analyzeBody (o : VisionOracle) : Except String AnalyzeResponse :=
  match o.exnMsg with
  | some e => .error e
  | none =>
    if ¬ o.decodeOk then
      .ok { success := false, gridDetected := false, pattern := none
            status := 200, message := "Failed to decode image" }
    else if ¬ o.contourFound then
      .ok { success := false, gridDetected := false, pattern := none
            status := 200, message := "No 8x8 grid detected in image" }
    else if o.useHoughFirst then
      -- the Hough-first branch clamps the grid size into [3,8], so the
      -- JSON sampling-and-validation path always runs
      .ok (analyzeValidateHough o.patternA)
    else if o.centroidRows < 3 then
      .ok { success := false, gridDetected := false, pattern := none
            status := 200, message := "Could not detect valid grid" }
    else if o.centroidRows ≤ 8 then
      .ok (analyzeValidateHough o.patternA)
    else if o.clusterScoreLow then
      .ok { success := false, gridDetected := true, pattern := none
            status := 200
            message := "Poor image quality - colors cannot be reliably distinguished" }
    else
      .ok (analyzeValidateFinal o.patternB)

/-- The `analyze_image` endpoint: the catch-all `except Exception` converts
any exception into a status-200 failure response. -/
def analyzeImage (o : VisionOracle) : AnalyzeResponse :=
  match analyzeBody o with
  | .ok r => r
  | .error e =>
      { success := false, gridDetected := false, pattern := none
        status := 200, message := "Image analysis failed: " ++ e }

/-! Section: `verify_pattern` validation -/

/-- The submitted-pattern validation prefix of `verify_pattern`
(`main.py` lines 1762-1788): grid size `int(math.sqrt(len))` must
satisfy `grid*grid == len` and `3 ≤ grid ≤ 8`, then the distinct-value
count must lie in `[2,5]`; each violation raises `HTTPException(400)`.
Returns the status and detail of the raised error, or `none` when the
pattern is accepted. -/
def verifyValidate (p : List ℤ) : Option (ℕ × String) :=
  let g := Nat.sqrt p.length
  if g * g ≠ p.length ∨ g < 3 ∨ g > 8 then
    some (400, "Pattern must form a square grid from 3x3 to 8x8")
  else if distinctCount p < 2 then
    some (400, "Pattern must use at least 2 unique colors")
  else if distinctCount p > 5 then
    some (400, "Pattern must use at most 5 unique colors")
  else
    none

/-- The bounds the specification states for acceptance: length a perfect
square `N²` with `3 ≤ N ≤ 8` and distinct-value count in `[2,5]`. -/
def specAccept (p : List ℤ) : Prop :=
  (∃ n : ℕ, 3 ≤ n ∧ n ≤ 8 ∧ p.length = n * n) ∧
  2 ≤ distinctCount p ∧ distinctCount p ≤ 5

/-! Section: Stored patterns and the persistence snapshot -/

/-- One row of the `patterns` table as `verify_pattern` consumes it
(`pattern` already parsed from its JSON string, `material_colors`
parsed into an ink-ID → reference-RGB association list; `none` models a
row without material colours, which Mode B skips). -/
structure StoredPattern where
  pid : ℕ
  uuid : String
  inputText : String
  algorithm : String
  timestamp : ℕ
  gridSize : ℕ
  pattern : List ℤ
  materialColors : Option (List (ℤ × RGBv))
deriving Repr

/-- Association-list lookup (Python `dict` access / `dict.get`). -/
def alookup {α : Type} (l : List (ℤ × α)) (k : ℤ) : Option α :=
  (l.find? (fun pr => pr.1 = k)).map Prod.snd

/-- Insert into a timestamp-descending list. -/
def insertTsDesc (x : StoredPattern) :
    List StoredPattern → List StoredPattern
  | [] => [x]
  | y :: ys =>
    if y.timestamp ≥ x.timestamp then y :: insertTsDesc x ys
    else x :: y :: ys

/-- Model of `ORDER BY timestamp DESC`. -/
def sortTsDesc : List StoredPattern → List StoredPattern
  | [] => []
  | x :: xs => insertTsDesc x (sortTsDesc xs)

/-- Model of `PatternRepository.get_patterns_by_grid_size` (`sqlite_db.py`
lines 133-144): all rows of the given grid size, newest first. -/
def patternsByGridSize (db : List StoredPattern) (g : ℕ) :
    List StoredPattern :=
  sortTsDesc (db.filter (fun r => r.gridSize = g))

/-- Model of `PatternRepository.find_matching_patterns` with `exact_match=True,
limit=10` (`sqlite_db.py` lines 100-130): rows whose pattern array
equals the query, newest first, at most 10. -/
def findMatchingPatterns (db : List StoredPattern) (p : List ℤ) :
    List StoredPattern :=
  (sortTsDesc (db.filter (fun r => r.pattern = p))).take 10

/-! Section: Mode B: colour-remapped matching (`verify_pattern`) -/

/-- Construction of `id_to_rgb` (`main.py` lines 1809-1830): walk the
pattern; for cell `idx` look up `extracted_colors[idx // g][idx % g]`
(an out-of-range access raises `HTTPException(400)`); the FIRST cell
carrying an ink-ID supplies that ID's representative RGB (`id_to_cells`
is also collected by the source but never used — despite the comment
"Compute average RGB for each color ID", no average is taken). -/
def buildIdToRgb (g : ℕ) (ec : List (List RGBv)) :
    ℕ → List ℤ → List (ℤ × RGBv) →
    Except (ℕ × String) (List (ℤ × RGBv))
  | _, [], acc => .ok acc
  | idx, cid :: rest, acc =>
    match (ec.get? (idx / g)).bind (fun row => row.get? (idx % g)) with
    | none =>
        .error (400, "extracted_colors dimensions do not match pattern grid")
    | some rgb =>
        let acc2 := if (alookup acc cid).isSome then acc
                    else acc ++ [(cid, rgb)]
        buildIdToRgb g ec (idx + 1) rest acc2

/-- Average RGB of all cells carrying a given ink-ID, as the
specification (§4.4 Mode B step 1) and the source's own comment describe
the representative colour.  Kept separate from `buildIdToRgb` so the two
can be compared.  (Division is exact at the inputs we evaluate it on.) -/
def avgRgbForId (g : ℕ) (ec : List (List RGBv)) (p : List ℤ) (cid : ℤ) :
    RGBv :=
  let cells := (p.enum.filter (fun pr => pr.2 = cid)).filterMap
    (fun pr => (ec.get? (pr.1 / g)).bind (fun row => row.get? (pr.1 % g)))
  let n : ℤ := cells.length
  if n = 0 then ⟨0, 0, 0⟩
  else
    { r := (cells.map RGBv.r).sum / n
      g := (cells.map RGBv.g).sum / n
      b := (cells.map RGBv.b).sum / n }

/-- One step of the inner minimum-distance scan (`main.py` lines
1903-1916): skip stored IDs already used, otherwise keep the candidate
with strictly smaller distance (`min_distance` starts at `inf`, so the
first unused entry is always taken). -/
noncomputable def closestStep (used : List ℤ) (srgb : RGBv)
    (best : Option (ℤ × ℝ)) (entry : ℤ × RGBv) : Option (ℤ × ℝ) :=
  if entry.1 ∈ used then best
  else
    let d := rgbDist srgb entry.2
    match best with
    | none => some (entry.1, d)
    | some (c, m) => if d < m then some (entry.1, d) else some (c, m)

/-- Computes `closest_stored_id` for one scanned colour (`main.py` lines
1899-1916), scanning the stored palette in the given order. -/
noncomputable def closestUnused (pal : List (ℤ × RGBv)) (used : List ℤ)
    (srgb : RGBv) : Option ℤ :=
  (pal.foldl (closestStep used srgb) none).map Prod.fst

/-- The greedy scanned-ID → stored-ID assignment loop (`main.py` lines
1892-1920): for each scanned ID, in the given iteration order, assign
the nearest unused stored ID and mark it used.  (The source reads the
scanned RGB with `id_to_rgb[scanned_id]`, whose key is always present;
`getD` supplies an irrelevant default.) -/
noncomputable def greedyAssignGo (pal : List (ℤ × RGBv))
    (idToRgb : List (ℤ × RGBv)) :
    List ℤ → List ℤ → List (ℤ × ℤ)
  | _, [] => []
  | used, sid :: rest =>
    let srgb := (alookup idToRgb sid).getD ⟨0, 0, 0⟩
    match closestUnused pal used srgb with
    | some c => (sid, c) :: greedyAssignGo pal idToRgb (c :: used) rest
    | none => greedyAssignGo pal idToRgb used rest

/-- The full greedy assignment, starting from an empty used set. -/
noncomputable def greedyAssign (pal : List (ℤ × RGBv))
    (idToRgb : List (ℤ × RGBv)) (scannedIds : List ℤ) : List (ℤ × ℤ) :=
  greedyAssignGo pal idToRgb [] scannedIds

/-- Computes `avg_distance` over the assigned pairs (`main.py` lines 1938-1948):
sum of the Euclidean RGB distances of the assigned ID pairs divided by
the number of pairs. -/
noncomputable def avgAssignedDistance (idToRgb pal : List (ℤ × RGBv))
    (mapping : List (ℤ × ℤ)) : ℝ :=
  (mapping.map (fun pr =>
    rgbDist ((alookup idToRgb pr.1).getD ⟨0, 0, 0⟩)
            ((alookup pal pr.2).getD ⟨0, 0, 0⟩))).sum / mapping.length

/-- The score `confidence = max(0, 1 - (avg_distance / 442))` (`main.py` line
1951). -/
noncomputable def candConfidence (idToRgb pal : List (ℤ × RGBv))
    (mapping : List (ℤ × ℤ)) : ℝ :=
  max 0 (1 - avgAssignedDistance idToRgb pal mapping / 442)

/-- Processing of one candidate row in the Mode B loop (`main.py` lines
1844-1951): skip rows without material colours; skip when the scanned
IDs are not a subset of the stored IDs or outnumber them; build the
greedy assignment, remap the pattern through it (`id_mapping.get(pid,
pid)`), and on an element-wise match return this candidate's
confidence. -/
noncomputable def processCandidate (idToRgb : List (ℤ × RGBv))
    (pattern : List ℤ) (cand : StoredPattern) : Option ℝ :=
  match cand.materialColors with
  | none => none
  | some pal =>
    if ¬ (∀ s ∈ idToRgb.map Prod.fst, s ∈ pal.map Prod.fst) then none
    else if (pal.map Prod.fst).length < (idToRgb.map Prod.fst).length then
      none
    else if pattern.map (fun pid =>
        (alookup (greedyAssign pal idToRgb (idToRgb.map Prod.fst))
          pid).getD pid) = cand.pattern then
      some (candConfidence idToRgb pal
        (greedyAssign pal idToRgb (idToRgb.map Prod.fst)))
    else none

/-- The `best_score` of the running best match (`best_score = 0` before the
loop). -/
noncomputable def bestScore : Option (StoredPattern × ℝ) → ℝ
  | none => 0
  | some pr => pr.2

/-- One iteration of the candidate loop (`main.py` lines 1844-1962):
keep the candidate if its confidence strictly exceeds the running
best. -/
noncomputable def modeBStep (idToRgb : List (ℤ × RGBv)) (pattern : List ℤ)
    (best : Option (StoredPattern × ℝ)) (cand : StoredPattern) :
    Option (StoredPattern × ℝ) :=
  match processCandidate idToRgb pattern cand with
  | none => best
  | some conf => if bestScore best < conf then some (cand, conf) else best

/-- The whole Mode B candidate loop: `best_match` (with its score) after
scanning all candidates. -/
noncomputable def modeB (idToRgb : List (ℤ × RGBv)) (pattern : List ℤ)
    (cands : List StoredPattern) : Option (StoredPattern × ℝ) :=
  cands.foldl (modeBStep idToRgb pattern) none

/-- A two-ink scanned-colour table used for concrete evaluation of the
matcher. -/
def fixPal : List (ℤ × RGBv) := [(0, ⟨10, 0, 0⟩), (1, ⟨0, 0, 200⟩)]

/-- A 3×3 two-ink pattern used for concrete evaluation. -/
def fixPat : List ℤ := [0, 1, 0, 1, 0, 1, 0, 1, 1]

/-- A stored record carrying `fixPat` and the palette `fixPal`. -/
def fixCand : StoredPattern :=
  { pid := 7, uuid := "u-7", inputText := "TEST", algorithm := "sha256"
    timestamp := 5, gridSize := 3, pattern := fixPat
    materialColors := some fixPal }

/-! Section: The `verify_pattern` endpoint -/

/-- One entry of the `matches` array of a `ScannerResponse`. -/
structure MatchOut where
  mid : String
  inputText : String
  algorithm : String
  timestamp : ℕ
  confidence : ℝ

/-- Model of `ScannerResponse`: `matchList` models the `matches` field (the word
itself is reserved in Lean); `partial_matches` is returned as `[]` at
every return site and is modelled by `extraMatches`. -/
structure ScannerOut where
  found : Bool
  matchList : List MatchOut
  extraMatches : List MatchOut

/-- One row handed to
`VerificationRepository.create_verification_log`. -/
structure AuditRecord where
  patternInput : List ℤ
  found : Bool
  matchedPatternId : Option ℕ
  confidence : Option ℝ
  algorithm : String
  responseTimeMs : ℕ

/-- Outcome of one `verify_pattern` call: a normal response, an
`HTTPException`, or an exception that escapes the endpoint uncaught. -/
inductive VerifyResult where
  | ok (resp : ScannerOut)
  | httpError (status : ℕ) (detail : String)
  | exn (msg : String)

/-- Holds `true` exactly on a normal (`ScannerResponse`) outcome. -/
def VerifyResult.succeeded : VerifyResult → Bool
  | .ok _ => true
  | _ => false

/-- The `found` flag of a normal outcome (`false` otherwise). -/
def VerifyResult.foundFlag : VerifyResult → Bool
  | .ok resp => resp.found
  | _ => false

/-- A `ScannerRequest`. -/
structure VerifyRequest where
  pattern : List ℤ
  algorithm : String
  extractedColors : Option (List (List RGBv))

/-- The Mode A tail of `verify_pattern` (`main.py` lines 2002-2044):
exact match of `remapped_pattern` (which is always the submitted
pattern, it is never reassigned) against the database, confidence 1.0
per match, one audit record; a failing audit write is caught by the
surrounding `except` and re-raised as `HTTPException(500)` after the
`INSERT` rolled back. -/
noncomputable def modeA (db : List StoredPattern) (pattern : List ℤ)
    (alg : String) (logFails : Bool) (rtMs : ℕ) :
    VerifyResult × List AuditRecord :=
  let ms := findMatchingPatterns db pattern
  let outs := ms.map (fun m =>
    MatchOut.mk m.uuid m.inputText m.algorithm m.timestamp (1 : ℝ))
  let found := ¬ ms.isEmpty
  if logFails then
    (.httpError 500 "Verification failed", [])
  else
    (.ok (ScannerOut.mk found outs []),
     [AuditRecord.mk pattern found ((ms.getLast?).map StoredPattern.pid)
        (if ms.isEmpty then none else some 1) alg rtMs])

/-- The `verify_pattern` endpoint (`main.py` lines 1750-2054).
`db` is the snapshot of the `patterns` table, `logFails` says whether
the audit-log `INSERT` raises on this call, `rtMs` the measured response
latency.  Returns the outcome and the audit records written.  Note the
Mode B success path writes its audit record OUTSIDE the `try` block, so
a failing write escapes as an uncaught exception. -/
noncomputable def verifyPattern (db : List StoredPattern)
    (req : VerifyRequest) (logFails : Bool) (rtMs : ℕ) :
    VerifyResult × List AuditRecord :=
  match verifyValidate req.pattern with
  | some e => (.httpError e.1 e.2, [])
  | none =>
    let g := Nat.sqrt req.pattern.length
    match req.extractedColors with
    | none => modeA db req.pattern req.algorithm logFails rtMs
    | some ec =>
      if ec.length ≠ g then
        (.httpError 400 "extracted_colors must have g rows", [])
      else
        match buildIdToRgb g ec 0 req.pattern [] with
        | .error e => (.httpError e.1 e.2, [])
        | .ok idToRgb =>
          match modeB idToRgb req.pattern (patternsByGridSize db g) with
          | some bm =>
            if logFails then
              (.exn "verification log insert failed", [])
            else
              (.ok (ScannerOut.mk true
                      [MatchOut.mk bm.1.uuid bm.1.inputText bm.1.algorithm
                         bm.1.timestamp bm.2] []),
               [AuditRecord.mk req.pattern true (some bm.1.pid)
                  (some bm.2) req.algorithm rtMs])
          | none => modeA db req.pattern req.algorithm logFails rtMs

/-! Section: Basic facts about the embedded operations -/

theorem sqrt_nine : Nat.sqrt 9 = 3 := Nat.sqrt_eq 3

theorem rgbDist_nonneg (a b : RGBv) : 0 ≤ rgbDist a b :=
  Real.sqrt_nonneg _

theorem rgbDist_self (a : RGBv) : rgbDist a a = 0 := by
  unfold rgbDist sqDist
  simp [Real.sqrt_zero]

theorem sqDist_le_of_chInRange {a b : RGBv} (ha : chInRange a)
    (hb : chInRange b) : sqDist a b ≤ 195075 := by
  obtain ⟨h1, h2, h3, h4, h5, h6⟩ := ha
  obtain ⟨g1, g2, g3, g4, g5, g6⟩ := hb
  unfold sqDist
  have hr : (a.r - b.r) ^ 2 ≤ 255 ^ 2 := sq_le_sq' (by omega) (by omega)
  have hg : (a.g - b.g) ^ 2 ≤ 255 ^ 2 := sq_le_sq' (by omega) (by omega)
  have hbb : (a.b - b.b) ^ 2 ≤ 255 ^ 2 := sq_le_sq' (by omega) (by omega)
  norm_num at hr hg hbb ⊢
  omega

theorem rgbDist_lt_442 {a b : RGBv} (ha : chInRange a) (hb : chInRange b) :
    rgbDist a b < 442 := by
  unfold rgbDist
  rw [Real.sqrt_lt' (by norm_num : (0 : ℝ) < 442)]
  have h := sqDist_le_of_chInRange ha hb
  have : ((sqDist a b : ℤ) : ℝ) ≤ 195075 := by exact_mod_cast h
  norm_num
  linarith

theorem alookup_mem {α : Type} {l : List (ℤ × α)} {k : ℤ} {v : α}
    (h : alookup l k = some v) : v ∈ l.map Prod.snd := by
  unfold alookup at h
  obtain ⟨pr, hfind, hsnd⟩ := Option.map_eq_some'.mp h
  exact hsnd ▸ List.mem_map_of_mem Prod.snd (List.mem_of_find?_eq_some hfind)

theorem chInRange_getD {l : List (ℤ × RGBv)} {k : ℤ}
    (h : ∀ pr ∈ l, chInRange pr.2) :
    chInRange ((alookup l k).getD ⟨0, 0, 0⟩) := by
  cases hl : alookup l k with
  | none => simpa using (by decide : chInRange ⟨0, 0, 0⟩)
  | some v =>
    simp only [Option.getD_some]
    obtain ⟨pr, hpr, hv⟩ := List.mem_map.mp (alookup_mem hl)
    exact hv ▸ h pr hpr

theorem insertTsDesc_length (x : StoredPattern) (l : List StoredPattern) :
    (insertTsDesc x l).length = l.length + 1 := by
  induction l with
  | nil => rfl
  | cons y ys ih =>
    unfold insertTsDesc
    split <;> simp [ih]

theorem sortTsDesc_length (l : List StoredPattern) :
    (sortTsDesc l).length = l.length := by
  induction l with
  | nil => rfl
  | cons x xs ih => simp [sortTsDesc, insertTsDesc_length, ih]

/-! Section: Greedy assignment: invariants -/

theorem closestStep_inv {used : List ℤ} {srgb : RGBv}
    {best : Option (ℤ × ℝ)} {entry : ℤ × RGBv}
    (hb : ∀ cm : ℤ × ℝ, best = some cm → cm.1 ∉ used) :
    ∀ cm : ℤ × ℝ, closestStep used srgb best entry = some cm →
      cm.1 ∉ used := by
  intro cm hcm
  unfold closestStep at hcm
  by_cases hu : entry.1 ∈ used
  · rw [if_pos hu] at hcm
    exact hb cm hcm
  · rw [if_neg hu] at hcm
    cases best with
    | none =>
      simp only at hcm
      cases hcm
      exact hu
    | some pr =>
      simp only at hcm
      split at hcm
      · cases hcm; exact hu
      · exact hb cm hcm

theorem closestFold_inv {used : List ℤ} {srgb : RGBv}
    (pal : List (ℤ × RGBv)) (b : Option (ℤ × ℝ))
    (hb : ∀ cm : ℤ × ℝ, b = some cm → cm.1 ∉ used) :
    ∀ cm : ℤ × ℝ, pal.foldl (closestStep used srgb) b = some cm →
      cm.1 ∉ used := by
  induction pal generalizing b with
  | nil => exact hb
  | cons e rest ih =>
    intro cm hcm
    exact ih (closestStep used srgb b e) (closestStep_inv hb) cm hcm

theorem closestUnused_not_used {pal : List (ℤ × RGBv)} {used : List ℤ}
    {srgb : RGBv} {c : ℤ} (h : closestUnused pal used srgb = some c) :
    c ∉ used := by
  unfold closestUnused at h
  obtain ⟨cm, hcm, hc⟩ := Option.map_eq_some'.mp h
  exact hc ▸ closestFold_inv pal none (by simp) cm hcm

theorem greedyAssignGo_inv (pal idToRgb : List (ℤ × RGBv))
    (sids : List ℤ) (used : List ℤ) :
    ((greedyAssignGo pal idToRgb used sids).map Prod.snd).Nodup ∧
    ∀ v ∈ (greedyAssignGo pal idToRgb used sids).map Prod.snd,
      v ∉ used := by
  induction sids generalizing used with
  | nil => simp [greedyAssignGo]
  | cons sid rest ih =>
    unfold greedyAssignGo
    cases hc : closestUnused pal used ((alookup idToRgb sid).getD ⟨0, 0, 0⟩) with
    | none =>
      simp only [hc]
      exact ih used
    | some c =>
      simp only [hc, List.map_cons, List.nodup_cons, List.mem_cons]
      obtain ⟨ihn, ihu⟩ := ih (c :: used)
      have hcnotused := closestUnused_not_used hc
      refine ⟨⟨fun hmem => ?_, ihn⟩, ?_⟩
      · exact (ihu c hmem) (List.mem_cons_self c used)
      · rintro v (rfl | hv)
        · exact hcnotused
        · intro hvu
          exact (ihu v hv) (List.mem_cons_of_mem c hvu)

/-- Claim C4: the greedy nearest-colour assignment of Mode B never
assigns two distinct scanned ink-IDs to the same stored ink-ID — the
list of assigned stored IDs is duplicate-free and the assignment is
injective — for every iteration order over the scanned IDs, every
palette, and every scanned-colour table. -/
theorem c4_greedy_injective :
    ∀ (pal idToRgb : List (ℤ × RGBv)) (scannedIds : List ℤ),
      ((greedyAssign pal idToRgb scannedIds).map Prod.snd).Nodup ∧
      ∀ p ∈ greedyAssign pal idToRgb scannedIds,
        ∀ q ∈ greedyAssign pal idToRgb scannedIds,
          p.2 = q.2 → p.1 = q.1 := by
  intro pal idToRgb scannedIds
  have h := (greedyAssignGo_inv pal idToRgb scannedIds []).1
  refine ⟨h, fun p hp q hq hpq => ?_⟩
  have := List.inj_on_of_nodup_map (f := Prod.snd) h hp hq hpq
  rw [this]

/-- Claim C6 counterexample: a pattern with 6 distinct ink-IDs (outside
the stated range `[2,5]`) is NOT reported as failed by either
classification-validation site of `analyze_image` — both return
`success = true` — refuting the claim that a distinct-count above 5
yields a failure report. -/
theorem c6_counterexample :
    distinctCount [0, 1, 2, 3, 4, 5, 0, 1, 2] = 6 ∧
    (analyzeValidateHough [0, 1, 2, 3, 4, 5, 0, 1, 2]).success = true ∧
    (analyzeValidateFinal [0, 1, 2, 3, 4, 5, 0, 1, 2]).success = true := by
  refine ⟨by decide, by decide, by decide⟩

/-- Claim C6 (amended): the classification stage reports failure exactly
when the distinct ink-ID count is below the lower bound — below 2 on the
Hough/centroid JSON path, below 3 on the fallback path; a count above 5
is only logged as a warning and the pattern is returned as a success. -/
theorem c6_amended :
    ∀ p : List ℤ,
      ((analyzeValidateHough p).success = false ↔ distinctCount p < 2) ∧
      ((analyzeValidateFinal p).success = false ↔ distinctCount p < 3) := by
  intro p
  constructor
  · unfold analyzeValidateHough
    split <;> simp_all
  · unfold analyzeValidateFinal
    split <;> simp_all

/-- Claim C8 counterexample: the Hough/centroid sampling path takes the
plain median of the window with no filtering, so at a window holding one
near-white pixel and one saturated red pixel its representative colour
differs from the filtered median the claim describes for every sample
point. -/
theorem c8_counterexample :
    sampleCellPlain [⟨255, 255, 255⟩, ⟨200, 0, 0⟩] = ⟨227, 127, 127⟩ ∧
    robustSampleSpec [⟨255, 255, 255⟩, ⟨200, 0, 0⟩] ⟨9, 9, 9⟩ =
      ⟨200, 0, 0⟩ ∧
    sampleCellPlain [⟨255, 255, 255⟩, ⟨200, 0, 0⟩] ≠
      robustSampleSpec [⟨255, 255, 255⟩, ⟨200, 0, 0⟩] ⟨9, 9, 9⟩ := by
  refine ⟨by decide, by decide, by decide⟩

theorem pixelValid_eq_spec (c : RGBv) :
    pixelValid c =
      decide (¬ (minCh c > 200) ∧ ¬ (maxCh c < 40 ∨ sumCh c < 100) ∧
              maxCh c - minCh c ≥ 50) := by
  unfold pixelValid
  by_cases h1 : minCh c > 200 ∨ maxCh c < 40 ∨ sumCh c < 100
  · rw [if_pos h1]
    symm
    rw [decide_eq_false_iff_not]
    rintro ⟨ha, hb, -⟩
    rcases h1 with h | h | h
    · exact ha h
    · exact hb (Or.inl h)
    · exact hb (Or.inr h)
  · rw [if_neg h1]
    by_cases h2 : maxCh c - minCh c < 50
    · rw [if_pos h2]
      symm
      rw [decide_eq_false_iff_not]
      rintro ⟨-, -, hs⟩
      omega
    · rw [if_neg h2]
      symm
      rw [decide_eq_true_eq]
      push_neg at h1
      refine ⟨by omega, ?_, by omega⟩
      rintro (h | h) <;> omega

/-- Claim C8 (amended): the filtered-median sampling the claim describes
is implemented exactly by the fallback cell-extraction path — its
sampler agrees with the specification's procedure on every window and is
insensitive to filtered-out pixels — while the Hough/centroid path uses
the plain unfiltered median (black, not the centre pixel, on an empty
window). -/
theorem c8_amended :
    (∀ (w : List RGBv) (c : RGBv),
       sampleCellFiltered w c = robustSampleSpec w c) ∧
    (∀ (p : RGBv) (w : List RGBv) (c : RGBv), pixelValid p = false →
       sampleCellFiltered (p :: w) c = sampleCellFiltered w c) := by
  constructor
  · intro w c
    unfold sampleCellFiltered robustSampleSpec
    rw [List.filter_congr (fun x _ => pixelValid_eq_spec x)]
  · intro p w c hp
    unfold sampleCellFiltered
    rw [List.filter_cons_of_neg]
    simp [hp]

/-- Claim C8 witness: a concrete near-white pixel is discarded by the
fallback-path sampler without changing the sampled colour. -/
theorem c8_witness :
    pixelValid ⟨255, 255, 255⟩ = false ∧
    sampleCellFiltered [⟨255, 255, 255⟩, ⟨200, 0, 0⟩] ⟨9, 9, 9⟩ =
      sampleCellFiltered [⟨200, 0, 0⟩] ⟨9, 9, 9⟩ :=
  ⟨by decide, c8_amended.2 ⟨255, 255, 255⟩ [⟨200, 0, 0⟩] ⟨9, 9, 9⟩ (by decide)⟩

/-- Claim C5: `verify_pattern` does NOT use the average RGB over all
cells carrying an ink-ID as that ID's representative colour — despite
the source's own comment "Compute average RGB for each color ID" (and
the unused `id_to_cells` table collected for that purpose), `id_to_rgb`
keeps only the FIRST cell's RGB.  At the 3×3 pattern
`[0,1,0,1,0,1,0,1,1]` whose ID-0 cells have colours `(100,0,0)`,
`(200,0,0)`, `(200,0,0)`, `(200,0,0)`, the code's representative for
ID 0 is `(100,0,0)` while the average is `(175,0,0)`. -/
theorem c5_code_bug :
    buildIdToRgb 3
      [[⟨100, 0, 0⟩, ⟨0, 0, 255⟩, ⟨200, 0, 0⟩],
       [⟨0, 0, 255⟩, ⟨200, 0, 0⟩, ⟨0, 0, 255⟩],
       [⟨200, 0, 0⟩, ⟨0, 0, 255⟩, ⟨0, 0, 255⟩]]
      0 [0, 1, 0, 1, 0, 1, 0, 1, 1] [] =
      .ok [(0, ⟨100, 0, 0⟩), (1, ⟨0, 0, 255⟩)] ∧
    avgRgbForId 3
      [[⟨100, 0, 0⟩, ⟨0, 0, 255⟩, ⟨200, 0, 0⟩],
       [⟨0, 0, 255⟩, ⟨200, 0, 0⟩, ⟨0, 0, 255⟩],
       [⟨200, 0, 0⟩, ⟨0, 0, 255⟩, ⟨0, 0, 255⟩]]
      [0, 1, 0, 1, 0, 1, 0, 1, 1] 0 = ⟨175, 0, 0⟩ ∧
    (⟨100, 0, 0⟩ : RGBv) ≠ ⟨175, 0, 0⟩ := by
  refine ⟨rfl, by decide, by decide⟩

/-- Claim C1: `verify_pattern` accepts a submitted pattern for
validation purposes if and only if its length is a perfect square `N²`
with `3 ≤ N ≤ 8` and its distinct-value count lies in `[2,5]`; any
other input is rejected with HTTP 400 before any matching or audit
logging happens (the outcome is the error, no audit record is written,
and the database snapshot is never consulted). -/
theorem c1_validation :
    ∀ p : List ℤ,
      (verifyValidate p = none ↔ specAccept p) ∧
      (∀ (db : List StoredPattern) (req : VerifyRequest) (lf : Bool)
         (rt : ℕ) (e : ℕ × String), req.pattern = p →
         verifyValidate p = some e →
         e.1 = 400 ∧
         verifyPattern db req lf rt =
           (VerifyResult.httpError e.1 e.2, [])) := by
  intro p
  constructor
  · unfold verifyValidate specAccept
    constructor
    · intro h
      by_cases hA : Nat.sqrt p.length * Nat.sqrt p.length ≠ p.length ∨
          Nat.sqrt p.length < 3 ∨ Nat.sqrt p.length > 8
      · rw [if_pos hA] at h
        exact absurd h (by simp)
      · rw [if_neg hA] at h
        by_cases hB : distinctCount p < 2
        · rw [if_pos hB] at h
          exact absurd h (by simp)
        · rw [if_neg hB] at h
          by_cases hC : distinctCount p > 5
          · rw [if_pos hC] at h
            exact absurd h (by simp)
          · push_neg at hA
            exact ⟨⟨Nat.sqrt p.length, hA.2.1, hA.2.2, hA.1.symm⟩,
              Nat.le_of_not_lt hB, Nat.le_of_not_lt hC⟩
    · rintro ⟨⟨n, hn3, hn8, hlen⟩, hd2, hd5⟩
      have hg : Nat.sqrt p.length = n := by rw [hlen, Nat.sqrt_eq]
      have hA : ¬ (Nat.sqrt p.length * Nat.sqrt p.length ≠ p.length ∨
          Nat.sqrt p.length < 3 ∨ Nat.sqrt p.length > 8) := by
        push_neg
        refine ⟨by rw [hg, hlen], by omega, by omega⟩
      rw [if_neg hA, if_neg (not_lt.mpr hd2), if_neg (not_lt.mpr hd5)]
  · intro db req lf rt e hreq hsome
    constructor
    · unfold verifyValidate at hsome
      by_cases hA : Nat.sqrt p.length * Nat.sqrt p.length ≠ p.length ∨
          Nat.sqrt p.length < 3 ∨ Nat.sqrt p.length > 8
      · rw [if_pos hA] at hsome
        injection hsome with hinj
        subst hinj
        rfl
      · rw [if_neg hA] at hsome
        by_cases hB : distinctCount p < 2
        · rw [if_pos hB] at hsome
          injection hsome with hinj
          subst hinj
          rfl
        · rw [if_neg hB] at hsome
          by_cases hC : distinctCount p > 5
          · rw [if_pos hC] at hsome
            injection hsome with hinj
            subst hinj
            rfl
          · rw [if_neg hC] at hsome
            exact absurd hsome (by simp)
    · unfold verifyPattern
      rw [hreq, hsome]

/-- Claim C1 witness: the all-zero 3×3 pattern (one distinct value) is
rejected with HTTP 400 and writes no audit record. -/
theorem c1_witness :
    verifyValidate [0, 0, 0, 0, 0, 0, 0, 0, 0] =
      some (400, "Pattern must use at least 2 unique colors") ∧
    verifyPattern [] ⟨[0, 0, 0, 0, 0, 0, 0, 0, 0], "auto-detect", none⟩
        false 0 =
      (VerifyResult.httpError 400
        "Pattern must use at least 2 unique colors", []) := by
  have h : verifyValidate [0, 0, 0, 0, 0, 0, 0, 0, 0] =
      some (400, "Pattern must use at least 2 unique colors") := by
    unfold verifyValidate
    rw [show Nat.sqrt ([0, 0, 0, 0, 0, 0, 0, 0, 0] : List ℤ).length = 3
        from sqrt_nine]
    decide
  exact ⟨h, ((c1_validation [0, 0, 0, 0, 0, 0, 0, 0, 0]).2 []
    ⟨[0, 0, 0, 0, 0, 0, 0, 0, 0], "auto-detect", none⟩ false 0
    (400, "Pattern must use at least 2 unique colors") rfl h).2⟩

/-! Section: Mode B: confidence bounds and the best-candidate fold -/

theorem avgAssignedDistance_nonneg (m pal : List (ℤ × RGBv))
    (mapping : List (ℤ × ℤ)) : 0 ≤ avgAssignedDistance m pal mapping := by
  unfold avgAssignedDistance
  refine div_nonneg (List.sum_nonneg ?_) (by positivity)
  intro x hx
  obtain ⟨pr, _, hpr⟩ := List.mem_map.mp hx
  exact hpr ▸ rgbDist_nonneg _ _

theorem candConfidence_nonneg (m pal : List (ℤ × RGBv))
    (mapping : List (ℤ × ℤ)) : 0 ≤ candConfidence m pal mapping :=
  le_max_left 0 _

theorem candConfidence_le_one (m pal : List (ℤ × RGBv))
    (mapping : List (ℤ × ℤ)) : candConfidence m pal mapping ≤ 1 := by
  unfold candConfidence
  have h := avgAssignedDistance_nonneg m pal mapping
  have : avgAssignedDistance m pal mapping / 442 ≥ 0 := by positivity
  refine max_le (by norm_num) (by linarith)

theorem rgbDist_le_bound {a b : RGBv} (ha : chInRange a)
    (hb : chInRange b) : rgbDist a b ≤ Real.sqrt 195075 := by
  refine Real.sqrt_le_sqrt ?_
  have h := sqDist_le_of_chInRange ha hb
  exact_mod_cast h

theorem sqrt_bound_lt_442 : Real.sqrt 195075 < 442 := by
  rw [Real.sqrt_lt' (by norm_num : (0 : ℝ) < 442)]
  norm_num

theorem avgAssignedDistance_lt_442 {m pal : List (ℤ × RGBv)}
    (mapping : List (ℤ × ℤ)) (hm : ∀ pr ∈ m, chInRange pr.2)
    (hpal : ∀ pr ∈ pal, chInRange pr.2) :
    avgAssignedDistance m pal mapping < 442 := by
  unfold avgAssignedDistance
  rcases eq_or_ne mapping [] with hnil | hne
  · subst hnil
    norm_num
  · have hlen : 0 < (mapping.length : ℝ) := by
      have := List.length_pos.mpr hne
      exact_mod_cast this
    have hsum : (mapping.map (fun pr =>
        rgbDist ((alookup m pr.1).getD ⟨0, 0, 0⟩)
          ((alookup pal pr.2).getD ⟨0, 0, 0⟩))).sum ≤
        (mapping.map (fun pr =>
          rgbDist ((alookup m pr.1).getD ⟨0, 0, 0⟩)
            ((alookup pal pr.2).getD ⟨0, 0, 0⟩))).length •
          Real.sqrt 195075 := by
      refine List.sum_le_card_nsmul _ _ ?_
      intro x hx
      obtain ⟨pr, _, hpr⟩ := List.mem_map.mp hx
      exact hpr ▸ rgbDist_le_bound (chInRange_getD hm) (chInRange_getD hpal)
    rw [List.length_map, nsmul_eq_mul] at hsum
    have havg : (mapping.map (fun pr =>
        rgbDist ((alookup m pr.1).getD ⟨0, 0, 0⟩)
          ((alookup pal pr.2).getD ⟨0, 0, 0⟩))).sum / mapping.length ≤
        Real.sqrt 195075 := by
      rw [div_le_iff₀ hlen]
      calc _ ≤ (mapping.length : ℝ) * Real.sqrt 195075 := hsum
        _ = Real.sqrt 195075 * mapping.length := by ring
    exact lt_of_le_of_lt havg sqrt_bound_lt_442

theorem candConfidence_pos {m pal : List (ℤ × RGBv)}
    (mapping : List (ℤ × ℤ)) (hm : ∀ pr ∈ m, chInRange pr.2)
    (hpal : ∀ pr ∈ pal, chInRange pr.2) :
    0 < candConfidence m pal mapping := by
  unfold candConfidence
  have h := avgAssignedDistance_lt_442 mapping hm hpal
  have : avgAssignedDistance m pal mapping / 442 < 1 := by
    rw [div_lt_one (by norm_num : (0 : ℝ) < 442)]
    exact h
  exact lt_max_iff.mpr (Or.inr (by linarith))

theorem processCandidate_spec {m : List (ℤ × RGBv)} {p : List ℤ}
    {cand : StoredPattern} {s : ℝ}
    (h : processCandidate m p cand = some s) :
    ∃ pal, cand.materialColors = some pal ∧
      s = candConfidence m pal (greedyAssign pal m (m.map Prod.fst)) ∧
      p.map (fun pid =>
        (alookup (greedyAssign pal m (m.map Prod.fst)) pid).getD pid) =
        cand.pattern := by
  unfold processCandidate at h
  cases hmc : cand.materialColors with
  | none => rw [hmc] at h; simp at h
  | some pal =>
    rw [hmc] at h
    dsimp only at h
    by_cases h1 : ¬ (∀ s ∈ m.map Prod.fst, s ∈ pal.map Prod.fst)
    · rw [if_pos h1] at h; simp at h
    · rw [if_neg h1] at h
      by_cases h2 : (pal.map Prod.fst).length < (m.map Prod.fst).length
      · rw [if_pos h2] at h; simp at h
      · rw [if_neg h2] at h
        by_cases h3 : p.map (fun pid =>
            (alookup (greedyAssign pal m (m.map Prod.fst)) pid).getD pid) =
            cand.pattern
        · rw [if_pos h3] at h
          injection h with hs
          exact ⟨pal, rfl, hs.symm, h3⟩
        · rw [if_neg h3] at h; simp at h

theorem modeBStep_score_le (m : List (ℤ × RGBv)) (p : List ℤ)
    (b : Option (StoredPattern × ℝ)) (cand : StoredPattern) :
    bestScore b ≤ bestScore (modeBStep m p b cand) := by
  unfold modeBStep
  cases hpc : processCandidate m p cand with
  | none => exact le_refl _
  | some conf =>
    dsimp only
    by_cases hlt : bestScore b < conf
    · rw [if_pos hlt]
      exact le_of_lt hlt
    · rw [if_neg hlt]

theorem modeBFold_score_le (m : List (ℤ × RGBv)) (p : List ℤ)
    (cands : List StoredPattern) (b : Option (StoredPattern × ℝ)) :
    bestScore b ≤ bestScore (cands.foldl (modeBStep m p) b) := by
  induction cands generalizing b with
  | nil => exact le_refl _
  | cons e rest ih =>
    exact le_trans (modeBStep_score_le m p b e) (ih (modeBStep m p b e))

theorem modeBFold_dominates (m : List (ℤ × RGBv)) (p : List ℤ)
    (cands : List StoredPattern) (b : Option (StoredPattern × ℝ)) :
    ∀ c ∈ cands, ∀ s, processCandidate m p c = some s →
      s ≤ bestScore (cands.foldl (modeBStep m p) b) := by
  induction cands generalizing b with
  | nil => intro c hc; exact absurd hc (List.not_mem_nil c)
  | cons e rest ih =>
    intro c hc s hs
    rcases List.mem_cons.mp hc with rfl | hmem
    · have hstep : s ≤ bestScore (modeBStep m p b c) := by
        unfold modeBStep
        rw [hs]
        dsimp only
        by_cases hlt : bestScore b < s
        · rw [if_pos hlt]
          exact le_refl s
        · rw [if_neg hlt]
          exact le_of_not_lt hlt
      exact le_trans hstep (modeBFold_score_le m p rest (modeBStep m p b c))
    · exact ih (modeBStep m p b e) c hmem s hs

theorem modeBFold_sound (m : List (ℤ × RGBv)) (p : List ℤ)
    (cands : List StoredPattern) (b : Option (StoredPattern × ℝ))
    (c : StoredPattern) (s : ℝ)
    (h : cands.foldl (modeBStep m p) b = some (c, s)) :
    b = some (c, s) ∨ (c ∈ cands ∧ processCandidate m p c = some s) := by
  induction cands generalizing b with
  | nil => exact Or.inl h
  | cons e rest ih =>
    rcases ih (modeBStep m p b e) h with hstep | ⟨hmem, hpc⟩
    · unfold modeBStep at hstep
      cases hpc : processCandidate m p e with
      | none =>
        rw [hpc] at hstep
        exact Or.inl hstep
      | some conf =>
        rw [hpc] at hstep
        dsimp only at hstep
        by_cases hlt : bestScore b < conf
        · rw [if_pos hlt] at hstep
          injection hstep with hpr
          have he := congrArg Prod.fst hpr
          have hsc := congrArg Prod.snd hpr
          dsimp only at he hsc
          subst he
          subst hsc
          exact Or.inr ⟨List.mem_cons_self _ _, hpc⟩
        · rw [if_neg hlt] at hstep
          exact Or.inl hstep
    · exact Or.inr ⟨List.mem_cons_of_mem e hmem, hpc⟩

theorem modeBFold_none (m : List (ℤ × RGBv)) (p : List ℤ)
    (cands : List StoredPattern) (b : Option (StoredPattern × ℝ))
    (h : cands.foldl (modeBStep m p) b = none) : b = none := by
  induction cands generalizing b with
  | nil => exact h
  | cons e rest ih =>
    have hstep := ih (modeBStep m p b e) h
    unfold modeBStep at hstep
    cases hpc : processCandidate m p e with
    | none =>
      rw [hpc] at hstep
      exact hstep
    | some conf =>
      rw [hpc] at hstep
      dsimp only at hstep
      by_cases hlt : bestScore b < conf
      · rw [if_pos hlt] at hstep
        exact absurd hstep (by simp)
      · rw [if_neg hlt] at hstep
        exact hstep

/-- Claim C3: whenever the Mode B loop reports a best match `(c, s)`,
`c` is a candidate whose remapped pattern equals its stored pattern and
`s` is exactly `max(0, 1 − avg_assigned_distance / 442)` over the greedy
assignment built for `c`; `s` dominates the confidence of every other
matching candidate; every reported confidence lies in `[0,1]`; and
(channels being genuine uint8 values) whenever some candidate matches,
a best match IS reported. -/
theorem c3_confidence :
    (∀ (idToRgb : List (ℤ × RGBv)) (p : List ℤ)
       (cands : List StoredPattern) (c : StoredPattern) (s : ℝ),
       modeB idToRgb p cands = some (c, s) →
       (c ∈ cands ∧ processCandidate idToRgb p c = some s) ∧
       (∃ pal, c.materialColors = some pal ∧
          s = max 0 (1 - avgAssignedDistance idToRgb pal
                (greedyAssign pal idToRgb (idToRgb.map Prod.fst)) / 442)) ∧
       (∀ c2 ∈ cands, ∀ s2, processCandidate idToRgb p c2 = some s2 →
          s2 ≤ s) ∧
       0 ≤ s ∧ s ≤ 1) ∧
    (∀ (idToRgb : List (ℤ × RGBv)) (p : List ℤ)
       (cands : List StoredPattern),
       (∀ pr ∈ idToRgb, chInRange pr.2) →
       (∀ c2 ∈ cands, ∀ pal, c2.materialColors = some pal →
          ∀ pr ∈ pal, chInRange pr.2) →
       ∀ c2 ∈ cands, ∀ s2, processCandidate idToRgb p c2 = some s2 →
       modeB idToRgb p cands ≠ none) := by
  constructor
  · intro m p cands c s h
    unfold modeB at h
    rcases modeBFold_sound m p cands none c s h with hnone | ⟨hmem, hpc⟩
    · exact absurd hnone (by simp)
    obtain ⟨pal, hmc, hs, hremap⟩ := processCandidate_spec hpc
    refine ⟨⟨hmem, hpc⟩, ⟨pal, hmc, ?_⟩, ?_, ?_, ?_⟩
    · rw [hs]
      rfl
    · intro c2 hc2 s2 hs2
      have hdom := modeBFold_dominates m p cands none c2 hc2 s2 hs2
      rw [h] at hdom
      exact hdom
    · rw [hs]
      exact candConfidence_nonneg _ _ _
    · rw [hs]
      exact candConfidence_le_one _ _ _
  · intro m p cands hm hpals c2 hc2 s2 hs2 hnone
    unfold modeB at hnone
    have hdom := modeBFold_dominates m p cands none c2 hc2 s2 hs2
    rw [hnone] at hdom
    obtain ⟨pal, hmc, hs, -⟩ := processCandidate_spec hs2
    have hpos : 0 < s2 :=
      hs ▸ candConfidence_pos _ hm (hpals c2 hc2 pal hmc)
    have hle : s2 ≤ 0 := hdom
    linarith

/-- Claim C3 witness: one stored candidate whose palette equals the
scanned colours exactly is reported with confidence 1, which satisfies
all the bounds. -/
theorem c3_witness :
    modeB fixPal fixPat [fixCand] = some (fixCand, 1) ∧
    processCandidate fixPal fixPat fixCand = some 1 ∧
    (∀ c2 ∈ [fixCand], ∀ s2,
       processCandidate fixPal fixPat c2 = some s2 → s2 ≤ 1) ∧
    (0 : ℝ) ≤ 1 ∧ (1 : ℝ) ≤ 1 ∧
    modeB fixPal fixPat [fixCand] ≠ none := by
  have e0 : (alookup fixPal 0).getD ⟨0, 0, 0⟩ = (⟨10, 0, 0⟩ : RGBv) := rfl
  have e1 : (alookup fixPal 1).getD ⟨0, 0, 0⟩ = (⟨0, 0, 200⟩ : RGBv) := rfl
  have hno : ¬ rgbDist ⟨10, 0, 0⟩ ⟨0, 0, 200⟩ <
      rgbDist (⟨10, 0, 0⟩ : RGBv) ⟨10, 0, 0⟩ := by
    rw [rgbDist_self]
    exact not_lt.mpr (rgbDist_nonneg _ _)
  have step2 : closestStep [] (⟨10, 0, 0⟩ : RGBv)
      (some ((0 : ℤ), rgbDist (⟨10, 0, 0⟩ : RGBv) ⟨10, 0, 0⟩))
      ((1 : ℤ), (⟨0, 0, 200⟩ : RGBv)) =
      some (0, rgbDist (⟨10, 0, 0⟩ : RGBv) ⟨10, 0, 0⟩) := by
    unfold closestStep
    rw [if_neg (by decide : ¬ ((1 : ℤ) ∈ ([] : List ℤ)))]
    dsimp only
    rw [if_neg hno]
  have hclos0 : closestUnused fixPal [] ⟨10, 0, 0⟩ = some 0 := by
    unfold closestUnused fixPal
    rw [List.foldl_cons, List.foldl_cons, List.foldl_nil]
    rw [show closestStep [] (⟨10, 0, 0⟩ : RGBv) none
          ((0 : ℤ), (⟨10, 0, 0⟩ : RGBv)) =
        some (0, rgbDist (⟨10, 0, 0⟩ : RGBv) ⟨10, 0, 0⟩) from rfl]
    rw [step2]
    rfl
  have hclos1 : closestUnused fixPal [(0 : ℤ)] ⟨0, 0, 200⟩ = some 1 := rfl
  have hgreedy : greedyAssign fixPal fixPal (fixPal.map Prod.fst) =
      [(0, 0), (1, 1)] := by
    unfold greedyAssign
    rw [show fixPal.map Prod.fst = [(0 : ℤ), 1] from rfl]
    unfold greedyAssignGo
    rw [e0]
    dsimp only
    rw [hclos0]
    dsimp only
    unfold greedyAssignGo
    rw [e1]
    dsimp only
    rw [hclos1]
    rfl
  have hconf : candConfidence fixPal fixPal [(0, 0), (1, 1)] = 1 := by
    unfold candConfidence avgAssignedDistance
    rw [List.map_cons, List.map_cons, List.map_nil]
    dsimp only
    rw [e0, e1, rgbDist_self, rgbDist_self]
    norm_num
  have hproc : processCandidate fixPal fixPat fixCand = some 1 := by
    unfold processCandidate
    rw [show fixCand.materialColors = some fixPal from rfl]
    dsimp only
    rw [if_neg (not_not_intro (by decide :
      ∀ s ∈ fixPal.map Prod.fst, s ∈ fixPal.map Prod.fst))]
    rw [if_neg (by decide :
      ¬ (fixPal.map Prod.fst).length < (fixPal.map Prod.fst).length)]
    rw [hgreedy]
    rw [if_pos (by decide : fixPat.map (fun pid =>
      (alookup [((0 : ℤ), (0 : ℤ)), (1, 1)] pid).getD pid) = fixCand.pattern)]
    rw [hconf]
  have hmode : modeB fixPal fixPat [fixCand] = some (fixCand, 1) := by
    unfold modeB
    rw [List.foldl_cons, List.foldl_nil]
    unfold modeBStep
    rw [hproc]
    dsimp only
    rw [if_pos (show bestScore (none : Option (StoredPattern × ℝ)) < 1 by
      unfold bestScore
      norm_num)]
  obtain ⟨⟨hmem, hpc⟩, hform, hdom, h0, h1⟩ :=
    c3_confidence.1 fixPal fixPat [fixCand] fixCand 1 hmode
  have hne := c3_confidence.2 fixPal fixPat [fixCand]
    (by decide)
    (by
      intro c2 hc2 pal hp pr hpr
      rw [List.mem_singleton] at hc2
      subst hc2
      have hpal := Option.some.inj (show some fixPal = some pal from hp)
      subst hpal
      revert pr hpr
      decide)
    fixCand (List.mem_singleton.mpr rfl) 1 hpc
  exact ⟨hmode, hpc, hdom, h0, h1, hne⟩

/-! Section: Mode A and the endpoint-level claims -/

theorem findMatchingPatterns_ne_nil {db : List StoredPattern}
    {p : List ℤ} {r : StoredPattern} (hr : r ∈ db) (hpat : r.pattern = p) :
    findMatchingPatterns db p ≠ [] := by
  unfold findMatchingPatterns
  intro hcontra
  have h1 : r ∈ db.filter (fun q => decide (q.pattern = p)) :=
    List.mem_filter.mpr ⟨hr, by simp [hpat]⟩
  have h2 : 0 < (sortTsDesc (db.filter (fun q => decide (q.pattern = p)))).length := by
    rw [sortTsDesc_length]
    exact List.length_pos.mpr (List.ne_nil_of_mem h1)
  rcases List.take_eq_nil_iff.mp hcontra with h | h
  · exact absurd h (by norm_num)
  · rw [h] at h2
    exact absurd h2 (by simp)

/-- Claim C2: with extracted colours supplied, a Mode B run that yields
no match makes `verify_pattern` behave exactly as a call without
extracted colours — Mode A on the unmapped submitted pattern; and in
Mode A, whenever a stored record carries exactly the submitted pattern,
the response has `found = true` and every returned match has
confidence 1.0. -/
theorem c2_matcher :
    (∀ (db : List StoredPattern) (p : List ℤ) (alg : String)
       (ec : List (List RGBv)) (lf : Bool) (rt : ℕ)
       (m : List (ℤ × RGBv)),
       ec.length = Nat.sqrt p.length →
       buildIdToRgb (Nat.sqrt p.length) ec 0 p [] = .ok m →
       modeB m p (patternsByGridSize db (Nat.sqrt p.length)) = none →
       verifyPattern db ⟨p, alg, some ec⟩ lf rt =
         verifyPattern db ⟨p, alg, none⟩ lf rt) ∧
    (∀ (db : List StoredPattern) (p : List ℤ) (alg : String) (rt : ℕ)
       (r : StoredPattern), r ∈ db → r.pattern = p →
       verifyValidate p = none →
       (verifyPattern db ⟨p, alg, none⟩ false rt).1.foundFlag = true ∧
       (∀ resp, (verifyPattern db ⟨p, alg, none⟩ false rt).1 = .ok resp →
          ∀ mo ∈ resp.matchList, mo.confidence = 1)) := by
  constructor
  · intro db p alg ec lf rt m hdims hbuild hnone
    unfold verifyPattern
    dsimp only
    cases hv : verifyValidate p with
    | some e => rfl
    | none =>
      dsimp only
      rw [if_neg (by rw [hdims]; exact fun h => h rfl)]
      rw [hbuild]
      dsimp only
      rw [hnone]
  · intro db p alg rt r hr hpat hv
    have hms := findMatchingPatterns_ne_nil hr hpat
    have hstep : verifyPattern db ⟨p, alg, none⟩ false rt =
        modeA db p alg false rt := by
      unfold verifyPattern
      dsimp only
      rw [hv]
    rw [hstep]
    unfold modeA
    dsimp only
    constructor
    · dsimp [VerifyResult.foundFlag]
      simp [List.isEmpty_iff, hms]
    · intro resp hresp mo hmo
      injection hresp with hresp2
      rw [← hresp2] at hmo
      dsimp only at hmo
      obtain ⟨q, -, hq⟩ := List.mem_map.mp hmo
      rw [← hq]

/-- Claim C2 witness: with an empty registry Mode B yields no match and
the call coincides with the no-colours call; with the registry holding
the exact pattern, Mode A reports it with confidence 1. -/
theorem c2_witness :
    verifyPattern [] ⟨fixPat, "sha256", some
        [[⟨10, 0, 0⟩, ⟨0, 0, 200⟩, ⟨10, 0, 0⟩],
         [⟨0, 0, 200⟩, ⟨10, 0, 0⟩, ⟨0, 0, 200⟩],
         [⟨10, 0, 0⟩, ⟨0, 0, 200⟩, ⟨0, 0, 200⟩]]⟩ false 0 =
      verifyPattern [] ⟨fixPat, "sha256", none⟩ false 0 ∧
    (verifyPattern [fixCand] ⟨fixPat, "sha256", none⟩ false 0).1.foundFlag =
      true := by
  constructor
  · refine c2_matcher.1 [] fixPat "sha256" _ false 0
      [(0, ⟨10, 0, 0⟩), (1, ⟨0, 0, 200⟩)] ?_ ?_ ?_
    · rw [show Nat.sqrt fixPat.length = 3 from sqrt_nine]
      rfl
    · rw [show Nat.sqrt fixPat.length = 3 from sqrt_nine]
      rfl
    · rfl
  · exact (c2_matcher.2 [fixCand] fixPat "sha256" 0 fixCand
      (List.mem_singleton.mpr rfl) rfl
      (by
        unfold verifyValidate
        rw [show Nat.sqrt fixPat.length = 3 from sqrt_nine]
        decide)).1

/-- Claim C7 counterexample: on a valid pattern present in the registry
(Mode A path), a failing audit-log write turns the response into an
HTTP 500 error — the caller does not receive the Match Result that the
same call returns when the write succeeds — refuting the claim that an
audit-write failure never changes the returned result. -/
theorem c7_counterexample :
    (verifyPattern [fixCand] ⟨fixPat, "auto-detect", none⟩ true 0).1.succeeded
      = false ∧
    (verifyPattern [fixCand] ⟨fixPat, "auto-detect", none⟩ false 0).1.succeeded
      = true ∧
    (verifyPattern [fixCand] ⟨fixPat, "auto-detect", none⟩ false 0).1.foundFlag
      = true ∧
    (verifyPattern [fixCand] ⟨fixPat, "auto-detect", none⟩ true 0).2 = [] := by
  have hv : verifyValidate fixPat = none := by
    unfold verifyValidate
    rw [show Nat.sqrt fixPat.length = 3 from sqrt_nine]
    decide
  refine ⟨?_, ?_, ?_, ?_⟩ <;>
    · unfold verifyPattern
      dsimp only
      rw [hv]
      rfl

/-- Claim C7 (amended): on a valid pattern (with well-formed extracted
colours when supplied), a verification call whose audit write succeeds
writes exactly one audit record and returns the Match Result; but when
the audit write raises, no record is written and the caller receives an
error (HTTP 500 on the Mode A path, an uncaught exception on the Mode B
success path) instead of the Match Result. -/
theorem c7_amended :
    ∀ (db : List StoredPattern) (req : VerifyRequest) (rt : ℕ),
      verifyValidate req.pattern = none →
      (req.extractedColors = none ∨
       (∃ ec m, req.extractedColors = some ec ∧
          ec.length = Nat.sqrt req.pattern.length ∧
          buildIdToRgb (Nat.sqrt req.pattern.length) ec 0 req.pattern [] =
            .ok m)) →
      ((verifyPattern db req false rt).2.length = 1 ∧
       (verifyPattern db req false rt).1.succeeded = true) ∧
      ((verifyPattern db req true rt).2 = [] ∧
       (verifyPattern db req true rt).1.succeeded = false) := by
  intro db req rt hv hec
  obtain ⟨p, alg, exc⟩ := req
  dsimp only at hv hec
  rcases hec with hnone | ⟨ec, m, hec, hdims, hbuild⟩
  · subst hnone
    have hrun : ∀ lf, verifyPattern db ⟨p, alg, none⟩ lf rt =
        modeA db p alg lf rt := by
      intro lf
      unfold verifyPattern
      dsimp only
      rw [hv]
    rw [hrun false, hrun true]
    exact ⟨⟨rfl, rfl⟩, rfl, rfl⟩
  · subst hec
    have hrun : ∀ lf, verifyPattern db ⟨p, alg, some ec⟩ lf rt =
        match modeB m p (patternsByGridSize db (Nat.sqrt p.length)) with
        | some bm =>
          if lf then (VerifyResult.exn "verification log insert failed", [])
          else
            (VerifyResult.ok (ScannerOut.mk true
                [MatchOut.mk bm.1.uuid bm.1.inputText bm.1.algorithm
                  bm.1.timestamp bm.2] []),
             [AuditRecord.mk p true (some bm.1.pid) (some bm.2) alg rt])
        | none => modeA db p alg lf rt := by
      intro lf
      unfold verifyPattern
      dsimp only
      rw [hv]
      dsimp only
      rw [if_neg (by rw [hdims]; exact fun h => h rfl), hbuild]
    rw [hrun false, hrun true]
    cases hbm : modeB m p (patternsByGridSize db (Nat.sqrt p.length)) with
    | some bm =>
      exact ⟨⟨rfl, rfl⟩, rfl, rfl⟩
    | none =>
      exact ⟨⟨rfl, rfl⟩, rfl, rfl⟩

/-- Claim C7 witness: a valid unmatched pattern on the direct path
writes exactly one audit record when the write succeeds, and none (with
an error outcome) when the write raises. -/
theorem c7_witness :
    (verifyPattern [] ⟨fixPat, "auto-detect", none⟩ false 0).2.length = 1 ∧
    (verifyPattern [] ⟨fixPat, "auto-detect", none⟩ false 0).1.succeeded
      = true ∧
    (verifyPattern [] ⟨fixPat, "auto-detect", none⟩ true 0).2 = [] := by
  have hv : verifyValidate fixPat = none := by
    unfold verifyValidate
    rw [show Nat.sqrt fixPat.length = 3 from sqrt_nine]
    decide
  obtain ⟨⟨h1, h2⟩, h3, -⟩ := c7_amended [] ⟨fixPat, "auto-detect", none⟩ 0
    hv (Or.inl rfl)
  exact ⟨h1, h2, h3⟩

theorem analyzeValidateHough_ok (p : List ℤ) :
    (analyzeValidateHough p).status = 200 ∧
    ((analyzeValidateHough p).success = false →
      (analyzeValidateHough p).message ≠ "") := by
  unfold analyzeValidateHough
  split
  · exact ⟨rfl, fun _ => by decide⟩
  · exact ⟨rfl, fun h => absurd h (by simp)⟩

theorem analyzeValidateFinal_ok (p : List ℤ) :
    (analyzeValidateFinal p).status = 200 ∧
    ((analyzeValidateFinal p).success = false →
      (analyzeValidateFinal p).message ≠ "") := by
  unfold analyzeValidateFinal
  split
  · exact ⟨rfl, fun _ => by decide⟩
  · exact ⟨rfl, fun h => absurd h (by simp)⟩

/-- Claim C10: `analyze_image` never surfaces an error to the caller:
whatever the vision stages do — decode failure, no grid contour, too few
colours, poor clustering, or an exception anywhere in the body — the
endpoint answers HTTP 200, and every failure answer carries
`success = false` with a non-empty human-readable message (an internal
exception additionally reports `grid_detected = false`). -/
theorem c10_no_raise :
    ∀ o : VisionOracle,
      (analyzeImage o).status = 200 ∧
      ((analyzeImage o).success = false → (analyzeImage o).message ≠ "") ∧
      (∀ e, o.exnMsg = some e → (analyzeImage o).success = false ∧
         (analyzeImage o).gridDetected = false) ∧
      (o.exnMsg = none → ¬ o.decodeOk →
         analyzeImage o =
           { success := false, gridDetected := false, pattern := none
             status := 200, message := "Failed to decode image" }) := by
  intro o
  unfold analyzeImage analyzeBody
  cases hexn : o.exnMsg with
  | some e =>
    dsimp only
    refine ⟨rfl, fun _ => ?_, fun e2 _ => ⟨rfl, rfl⟩,
      fun hne _ => absurd hne (by simp)⟩
    intro hcontra
    have hlen := congrArg String.length hcontra
    rw [String.length_append] at hlen
    rw [show ("Image analysis failed: " : String).length = 23 from rfl] at hlen
    rw [show ("" : String).length = 0 from rfl] at hlen
    omega
  | none =>
    dsimp only
    by_cases h1 : o.decodeOk
    · rw [if_neg (not_not_intro h1)]
      by_cases h2 : o.contourFound
      · rw [if_neg (not_not_intro h2)]
        by_cases h3 : o.useHoughFirst
        · rw [if_pos h3]
          exact ⟨(analyzeValidateHough_ok o.patternA).1,
            (analyzeValidateHough_ok o.patternA).2,
            fun e2 he2 => absurd he2 (by simp),
            fun _ hdec => absurd h1 hdec⟩
        · rw [if_neg h3]
          by_cases h4 : o.centroidRows < 3
          · rw [if_pos h4]
            exact ⟨rfl, fun _ => by decide,
              fun e2 he2 => absurd he2 (by simp),
              fun _ hdec => absurd h1 hdec⟩
          · rw [if_neg h4]
            by_cases h5 : o.centroidRows ≤ 8
            · rw [if_pos h5]
              exact ⟨(analyzeValidateHough_ok o.patternA).1,
                (analyzeValidateHough_ok o.patternA).2,
                fun e2 he2 => absurd he2 (by simp),
                fun _ hdec => absurd h1 hdec⟩
            · rw [if_neg h5]
              by_cases h6 : o.clusterScoreLow
              · rw [if_pos h6]
                exact ⟨rfl, fun _ => by decide,
                  fun e2 he2 => absurd he2 (by simp),
                  fun _ hdec => absurd h1 hdec⟩
              · rw [if_neg h6]
                exact ⟨(analyzeValidateFinal_ok o.patternB).1,
                  (analyzeValidateFinal_ok o.patternB).2,
                  fun e2 he2 => absurd he2 (by simp),
                  fun _ hdec => absurd h1 hdec⟩
      · rw [if_pos h2]
        exact ⟨rfl, fun _ => by decide,
          fun e2 he2 => absurd he2 (by simp),
          fun _ hdec => absurd h1 hdec⟩
    · rw [if_pos h1]
      exact ⟨rfl, fun _ => by decide,
        fun e2 he2 => absurd he2 (by simp), fun _ _ => rfl⟩

/-- Claim C10 witness: an internal exception still yields a status-200
failure response with a non-empty message. -/
theorem c10_witness :
    (analyzeImage ⟨true, true, true, 8, [0, 1], [0, 1], false,
        some "boom"⟩).status = 200 ∧
    (analyzeImage ⟨true, true, true, 8, [0, 1], [0, 1], false,
        some "boom"⟩).message ≠ "" ∧
    (analyzeImage ⟨true, true, true, 8, [0, 1], [0, 1], false,
        some "boom"⟩).success = false := by
  obtain ⟨hs, hm, hx, -⟩ := c10_no_raise
    ⟨true, true, true, 8, [0, 1], [0, 1], false, some "boom"⟩
  exact ⟨hs, hm (hx "boom" rfl).1, (hx "boom" rfl).1⟩

end LatticeLock
